import Mathlib

/-!
Verification of the prediction-market trading agent's decision-and-execution
core against its design specification.

The development shallowly embeds the relevant program units:

* the multi-factor decision tool (`marketDecisionExecute` and the five factor
  functions), from the decision agent module;
* the wallet security manager (`validateTradeAmount`), the trade execution
  pipeline (`tradeExecutionRun`) and its retry loop (`execLoop`), from the
  execution agent module;
* the per-source circuit breaker (`breakerExecute`) and the signal cache
  (`getCachedResult` / `setCachedResult`) with the reddit intelligence tool's
  control flow (`redditToolRun`), from the reddit intelligence tool module.

JavaScript numbers are modelled as exact rationals (ℚ); every concrete value
appearing in a theorem below was checked to be insensitive to this choice
(the binary64 computations land on the same side of every comparison and
rounding boundary involved).  External collaborators (the EVM backend, the
reddit API, the LLM sentiment service, the database) are modelled as oracle
inputs supplied through environment records, mirroring the spec's boundary
contracts.  `Math.round` is `jsRound` below (floor of x + 1/2, which agrees
with JavaScript on all values used here).
-/

/-- JavaScript `Math.round`: floor of `q + 1/2` (round half toward +∞). -/
def jsRound (q : ℚ) : ℤ := ⌊q + 1/2⌋

theorem jsRound_eq (q : ℚ) (z : ℤ) (h1 : (z : ℚ) ≤ q + 1/2) (h2 : q + 1/2 < z + 1) :
    jsRound q = z := by
  rw [jsRound]
  exact Int.floor_eq_iff.mpr ⟨h1, h2⟩

/-! ## Decision engine data model (decision agent module) -/

/-- `MarketContext` of the decision agent. -/
structure MarketContext where
  marketId : String
  title : String
  currentPrice : ℚ
  impliedProbability : ℚ
  liquidity : ℚ
  volume24h : ℚ
  timeToClose : ℚ
  spread : ℚ
  orderBookEnabled : Bool

/-- `newsIntelligence` component of `IntelligenceData`. -/
structure NewsIntelligence where
  sentiment_score : ℚ
  confidence : ℚ
  breaking_news : Bool
  news_count : ℚ
  source_credibility : ℚ

/-- One influencer signal in the social intelligence bundle. -/
structure InfluencerSignal where
  username : String
  sentiment : ℚ
  influence_weight : ℚ

/-- `socialIntelligence` component of `IntelligenceData`. -/
structure SocialIntelligence where
  twitter_sentiment : ℚ
  reddit_sentiment : ℚ
  engagement_momentum : ℚ
  trending_topics : List String
  influencer_signals : List InfluencerSignal

/-- `technical_signals` of the market intelligence component. -/
structure TechnicalSignals where
  price_momentum : ℚ
  volume_trend : ℚ
  market_efficiency : ℚ

/-- Consensus direction enumeration of the cross-market signals. -/
inductive ConsensusDirection
  | bullish
  | bearish
  | neutral
deriving DecidableEq

/-- `cross_market_signals` of the market intelligence component. -/
structure CrossMarketSignals where
  correlation_score : ℚ
  consensus_direction : ConsensusDirection

/-- `marketIntelligence` component of `IntelligenceData`. -/
structure MarketIntelligenceData where
  technical_signals : TechnicalSignals
  cross_market_signals : CrossMarketSignals

/-- `IntelligenceData` of the decision agent. -/
structure IntelligenceData where
  newsIntelligence : NewsIntelligence
  socialIntelligence : SocialIntelligence
  marketIntelligence : MarketIntelligenceData

/-- The five scoring factors of the decision engine. -/
structure ScoringFactors where
  sentiment_edge : ℚ
  technical_momentum : ℚ
  liquidity_quality : ℚ
  timing_urgency : ℚ
  news_catalyst : ℚ

/-- The fixed scoring weight table `SCORING_WEIGHTS` (reusing the factor record). -/
def SCORING_WEIGHTS : ScoringFactors :=
  { sentiment_edge := 0.40
    technical_momentum := 0.25
    liquidity_quality := 0.20
    timing_urgency := 0.10
    news_catalyst := 0.05 }

/-- Bounds imposed by the decision tool's input schema on the market object. -/
def ValidMarket (m : MarketContext) : Prop :=
  0 ≤ m.currentPrice ∧ m.currentPrice ≤ 1 ∧
  0 ≤ m.impliedProbability ∧ m.impliedProbability ≤ 100 ∧
  0 ≤ m.liquidity ∧ 0 ≤ m.volume24h ∧ 0 ≤ m.timeToClose ∧ 0 ≤ m.spread

/-- Bounds imposed by the decision tool's input schema on the intelligence object. -/
def ValidIntelligence (i : IntelligenceData) : Prop :=
  (-1 ≤ i.newsIntelligence.sentiment_score ∧ i.newsIntelligence.sentiment_score ≤ 1) ∧
  (0 ≤ i.newsIntelligence.confidence ∧ i.newsIntelligence.confidence ≤ 1) ∧
  0 ≤ i.newsIntelligence.news_count ∧
  (0 ≤ i.newsIntelligence.source_credibility ∧ i.newsIntelligence.source_credibility ≤ 1) ∧
  (-1 ≤ i.socialIntelligence.twitter_sentiment ∧ i.socialIntelligence.twitter_sentiment ≤ 1) ∧
  (-1 ≤ i.socialIntelligence.reddit_sentiment ∧ i.socialIntelligence.reddit_sentiment ≤ 1) ∧
  (0 ≤ i.socialIntelligence.engagement_momentum ∧ i.socialIntelligence.engagement_momentum ≤ 1) ∧
  (∀ s ∈ i.socialIntelligence.influencer_signals,
    (-1 ≤ s.sentiment ∧ s.sentiment ≤ 1) ∧
    (0 ≤ s.influence_weight ∧ s.influence_weight ≤ 1)) ∧
  (-1 ≤ i.marketIntelligence.technical_signals.price_momentum ∧
    i.marketIntelligence.technical_signals.price_momentum ≤ 1) ∧
  (-1 ≤ i.marketIntelligence.technical_signals.volume_trend ∧
    i.marketIntelligence.technical_signals.volume_trend ≤ 1) ∧
  (0 ≤ i.marketIntelligence.technical_signals.market_efficiency ∧
    i.marketIntelligence.technical_signals.market_efficiency ≤ 1) ∧
  (-1 ≤ i.marketIntelligence.cross_market_signals.correlation_score ∧
    i.marketIntelligence.cross_market_signals.correlation_score ≤ 1)

/-! ## Factor functions -/

/-- `calculateSentimentEdge`: confidence-weighted absolute gap between the
source-weighted sentiment and the market-implied sentiment. -/
def calculateSentimentEdge (intelligence : IntelligenceData) (market : MarketContext) : ℚ :=
  let newsWeight : ℚ := 0.3
  let twitterWeight : ℚ := 0.4
  let redditWeight : ℚ := 0.3
  let aggregatedSentiment :=
    intelligence.newsIntelligence.sentiment_score * newsWeight +
    intelligence.socialIntelligence.twitter_sentiment * twitterWeight +
    intelligence.socialIntelligence.reddit_sentiment * redditWeight
  let marketSentiment := (market.currentPrice - 0.5) * 2
  let sentimentGap := |aggregatedSentiment - marketSentiment|
  let avgConfidence := (intelligence.newsIntelligence.confidence + 0.8 + 0.7) / 3
  sentimentGap * avgConfidence

/-- `calculateTechnicalMomentum`: weighted blend of the technical signals,
clamped to [0,1]. -/
def calculateTechnicalMomentum (intelligence : IntelligenceData) : ℚ :=
  let technicals := intelligence.marketIntelligence.technical_signals
  let momentum :=
    technicals.price_momentum * 0.4 +
    technicals.volume_trend * 0.3 +
    technicals.market_efficiency * 0.3
  max 0 (min 1 momentum)

/-- `calculateLiquidityQuality`: blend of normalized liquidity, spread penalty
and normalized volume. -/
def calculateLiquidityQuality (market : MarketContext) : ℚ :=
  let liquidityScore := min 1 (market.liquidity / 10000)
  let spreadScore := max 0 (1 - market.spread / 0.05)
  let volumeScore := min 1 (market.volume24h / 2000)
  liquidityScore * 0.4 + spreadScore * 0.4 + volumeScore * 0.2

/-- `calculateTimingUrgency`: bucketed function of hours-to-close. -/
def calculateTimingUrgency (market : MarketContext) : ℚ :=
  let hoursToClose := market.timeToClose / (1000 * 60 * 60)
  if hoursToClose < 6 then 0.3
  else if 48 < hoursToClose then 0.6
  else if 12 ≤ hoursToClose ∧ hoursToClose ≤ 24 then 1.0
  else 0.7

/-- `calculateNewsCatalyst`: breaking-news boost plus news volume and
credibility, clamped to 1. -/
def calculateNewsCatalyst (intelligence : IntelligenceData) : ℚ :=
  let news := intelligence.newsIntelligence
  let catalystScore : ℚ := if news.breaking_news then 0.4 else 0
  let volumeScore := min 0.3 (news.news_count / 10)
  let credibilityScore := news.source_credibility * 0.3
  min 1 (catalystScore + volumeScore + credibilityScore)

/-- The weighted total used inside `calculateMultiFactorScore`. -/
def weightedTotal (f : ScoringFactors) : ℚ :=
  f.sentiment_edge * SCORING_WEIGHTS.sentiment_edge +
  f.technical_momentum * SCORING_WEIGHTS.technical_momentum +
  f.liquidity_quality * SCORING_WEIGHTS.liquidity_quality +
  f.timing_urgency * SCORING_WEIGHTS.timing_urgency +
  f.news_catalyst * SCORING_WEIGHTS.news_catalyst

/-- Result of `calculateMultiFactorScore`. -/
structure MultiFactorScore where
  totalScore : ℚ
  breakdown : ScoringFactors

/-- `calculateMultiFactorScore`: the five factors and their weighted total. -/
def calculateMultiFactorScore (intelligence : IntelligenceData) (market : MarketContext) :
    MultiFactorScore :=
  let factors : ScoringFactors :=
    { sentiment_edge := calculateSentimentEdge intelligence market
      technical_momentum := calculateTechnicalMomentum intelligence
      liquidity_quality := calculateLiquidityQuality market
      timing_urgency := calculateTimingUrgency market
      news_catalyst := calculateNewsCatalyst intelligence }
  { totalScore := weightedTotal factors, breakdown := factors }

/-! ## Strategy selection, position sizing, reasoning text -/

/-- Strategy tags of the decision engine. -/
inductive StrategyTag
  | sentiment_arbitrage
  | breaking_news_hunter
  | none
deriving DecidableEq

/-- Trade actions of the decision engine. -/
inductive TradeAction
  | BUY
  | SELL
  | HOLD
  | NONE
deriving DecidableEq

/-- Execution urgency levels. -/
inductive ExecutionUrgency
  | IMMEDIATE
  | NORMAL
  | PATIENT
deriving DecidableEq

/-- `STRATEGY_CONFIG.sentiment_arbitrage.min_sentiment_gap`. -/
def CONFIG_min_sentiment_gap : ℚ := 0.20

/-- `STRATEGY_CONFIG.sentiment_arbitrage.min_liquidity`. -/
def CONFIG_min_liquidity : ℚ := 2000

/-- `STRATEGY_CONFIG.sentiment_arbitrage.min_time_buffer` (12 hours in ms). -/
def CONFIG_min_time_buffer : ℚ := 12 * 60 * 60 * 1000

/-- `STRATEGY_CONFIG.sentiment_arbitrage.max_position`. -/
def CONFIG_sa_max_position : ℚ := 100

/-- `STRATEGY_CONFIG.risk_management.kelly_fraction`. -/
def CONFIG_kelly_fraction : ℚ := 0.25

/-- `STRATEGY_CONFIG.risk_management.max_single_trade`. -/
def CONFIG_max_single_trade : ℚ := 100

/-- `STRATEGY_CONFIG.breaking_news_hunter.stop_loss_threshold`. -/
def CONFIG_bnh_stop_loss_threshold : ℚ := 0.15

/-- `determineStrategy`: breaking-news hunter, then sentiment arbitrage, else none. -/
def determineStrategy (intelligence : IntelligenceData) (market : MarketContext)
    (scoring : MultiFactorScore) : StrategyTag :=
  if intelligence.newsIntelligence.breaking_news ∧
      0.6 < scoring.breakdown.news_catalyst ∧ 0.3 < scoring.breakdown.sentiment_edge then
    StrategyTag.breaking_news_hunter
  else if CONFIG_min_sentiment_gap < scoring.breakdown.sentiment_edge ∧
      CONFIG_min_liquidity ≤ market.liquidity ∧
      CONFIG_min_time_buffer ≤ market.timeToClose then
    StrategyTag.sentiment_arbitrage
  else
    StrategyTag.none

/-- Risk assessment record produced by `calculatePositionSizing`. -/
structure RiskAssessment where
  max_position_size : ℚ
  recommended_size : ℚ
  confidence_adjusted_size : ℚ
  risk_factors : List String
  stop_loss_price : Option ℚ

/-- `calculatePositionSizing`: confidence scaling, Kelly fraction, caps, risk factors. -/
def calculatePositionSizing (confidence : ℤ) (strategy : StrategyTag)
    (market : MarketContext) : RiskAssessment :=
  let maxPosition : ℚ :=
    if strategy = StrategyTag.breaking_news_hunter then 75
    else if strategy = StrategyTag.sentiment_arbitrage then CONFIG_sa_max_position
    else CONFIG_max_single_trade
  let baseSize : ℚ := if strategy = StrategyTag.breaking_news_hunter then 40 else 50
  let confidenceMultiplier : ℚ := max 0 (((confidence : ℚ) - 50) / 50)
  let confidenceAdjustedSize := baseSize * (0.5 + confidenceMultiplier)
  let kellySize := confidenceAdjustedSize * CONFIG_kelly_fraction
  let recommendedSize := min kellySize maxPosition
  let riskFactors : List String :=
    (if market.liquidity < 5000 then ["Low liquidity"] else []) ++
    (if 0.03 < market.spread then ["High spread"] else []) ++
    (if market.timeToClose < 24 * 60 * 60 * 1000 then ["Short time to close"] else []) ++
    (if confidence < 70 then ["Moderate confidence"] else [])
  { max_position_size := maxPosition
    recommended_size := recommendedSize
    confidence_adjusted_size := confidenceAdjustedSize
    risk_factors := riskFactors
    stop_loss_price :=
      if strategy = StrategyTag.breaking_news_hunter then
        some (market.currentPrice * (1 - CONFIG_bnh_stop_loss_threshold))
      else
        Option.none }

/-- `Array.prototype.join` with a separator, as used on the reason lists. -/
def joinWith (sep : String) : List String → String
  | [] => ""
  | [x] => x
  | x :: y :: ys => x ++ sep ++ joinWith sep (y :: ys)

/-- `Number.prototype.toFixed(1)` under the exact-rational model (used only on
nonnegative values in the reasoning text). -/
def toFixed1 (q : ℚ) : String :=
  let n := jsRound (q * 10)
  toString (n / 10) ++ "." ++ toString (n % 10)

/-- Average sentiment over the influencer signal list. -/
def influencerAvgSentiment (signals : List InfluencerSignal) : ℚ :=
  (signals.map (fun s => s.sentiment)).sum / (signals.length : ℚ)

/-- `generateTradeReasoning`: joins the applicable reason fragments with a dot
separator (the source's unused market parameter is dropped). -/
def generateTradeReasoning (strategy : StrategyTag) (breakdown : ScoringFactors)
    (risk : RiskAssessment) (intelligence : IntelligenceData) : String :=
  let reasons : List String :=
    (if strategy = StrategyTag.sentiment_arbitrage then
      ["Sentiment Arbitrage: " ++ toFixed1 (breakdown.sentiment_edge * 100) ++
        "% sentiment edge detected"]
    else if strategy = StrategyTag.breaking_news_hunter then
      ["Breaking News: High urgency catalyst with " ++
        toFixed1 (breakdown.news_catalyst * 100) ++ "% catalyst score"]
    else []) ++
    (if 0.7 < breakdown.technical_momentum then
      ["Strong technical momentum (" ++ toFixed1 (breakdown.technical_momentum * 100) ++ "%)"]
    else []) ++
    (if 0.8 < breakdown.liquidity_quality then ["Excellent liquidity conditions"] else []) ++
    (if intelligence.newsIntelligence.breaking_news then
      ["Breaking news catalyst detected"]
    else []) ++
    (if 0 < intelligence.socialIntelligence.influencer_signals.length then
      ["Influencer signals: " ++
        (if 0 < influencerAvgSentiment intelligence.socialIntelligence.influencer_signals then
          "bullish"
        else "bearish") ++
        " (" ++ toString intelligence.socialIntelligence.influencer_signals.length ++ " signals)"]
    else []) ++
    (if risk.risk_factors.length ≠ 0 then
      ["Risk factors: " ++ joinWith ", " risk.risk_factors]
    else [])
  joinWith ". " reasons

/-! ## The decision tool body -/

/-- The primary eligibility filters, in source order; every filter is checked
and the failing ones contribute their reason string. -/
def failedFilterReasons (market : MarketContext) : List String :=
  (if market.liquidity < 1000 then ["Insufficient liquidity"] else []) ++
  (if 72 * 60 * 60 * 1000 < market.timeToClose then ["Too much time until close"] else []) ++
  (if market.orderBookEnabled then [] else ["Order book not enabled"]) ++
  (if market.volume24h < 500 then ["Insufficient daily volume"] else []) ++
  (if 0.05 < market.spread then ["Spread too wide"] else [])

/-- The source-weighted directional sentiment used for the action decision. -/
def aggregatedDirectionalSentiment (intelligence : IntelligenceData) : ℚ :=
  intelligence.newsIntelligence.sentiment_score * 0.3 +
  intelligence.socialIntelligence.twitter_sentiment * 0.4 +
  intelligence.socialIntelligence.reddit_sentiment * 0.3

/-- The decision part of the tool's output object. -/
structure DecisionPart where
  action : TradeAction
  outcome : Option String
  confidence : ℤ
  position_size : ℚ
  reasoning : String
  strategy : StrategyTag
  execution_urgency : ExecutionUrgency

/-- The full output object of the market decision tool. -/
structure MarketDecisionOut where
  decision : DecisionPart
  risk_assessment : RiskAssessment
  scoring_breakdown : ScoringFactors
  total_score : ℚ
  market_filters_passed : Bool
  recommended_for_execution : Bool

/-- The early-return object produced when some eligibility filter failed. -/
def noneFilterOut (reasons : List String) : MarketDecisionOut :=
  { decision :=
      { action := TradeAction.NONE
        outcome := Option.none
        confidence := 0
        position_size := 0
        reasoning := "Market filters failed: " ++ joinWith ", " reasons
        strategy := StrategyTag.none
        execution_urgency := ExecutionUrgency.PATIENT }
    risk_assessment :=
      { max_position_size := 0, recommended_size := 0, confidence_adjusted_size := 0
        risk_factors := reasons, stop_loss_price := Option.none }
    scoring_breakdown :=
      { sentiment_edge := 0, technical_momentum := 0, liquidity_quality := 0
        timing_urgency := 0, news_catalyst := 0 }
    total_score := 0
    market_filters_passed := false
    recommended_for_execution := false }

/-- The `execute` body of the market decision tool. -/
def marketDecisionExecute (market : MarketContext) (intelligence : IntelligenceData) :
    MarketDecisionOut :=
  let reasons := failedFilterReasons market
  if reasons.isEmpty then
    let scoring := calculateMultiFactorScore intelligence market
    let strategy := determineStrategy intelligence market scoring
    let confidence := jsRound (scoring.totalScore * 100)
    let aggregatedSentiment := aggregatedDirectionalSentiment intelligence
    let actionOutcome : TradeAction × Option String :=
      if strategy ≠ StrategyTag.none ∧ 70 ≤ confidence then
        if 0.1 < aggregatedSentiment then (TradeAction.BUY, some "Yes")
        else if aggregatedSentiment < -0.1 then (TradeAction.BUY, some "No")
        else (TradeAction.HOLD, Option.none)
      else (TradeAction.NONE, Option.none)
    let action := actionOutcome.1
    let riskAssessment := calculatePositionSizing confidence strategy market
    let executionUrgency : ExecutionUrgency :=
      if strategy = StrategyTag.breaking_news_hunter then ExecutionUrgency.IMMEDIATE
      else if 85 < confidence ∧ scoring.breakdown.timing_urgency < 0.5 then
        ExecutionUrgency.IMMEDIATE
      else if confidence < 75 then ExecutionUrgency.PATIENT
      else ExecutionUrgency.NORMAL
    { decision :=
        { action := action
          outcome := actionOutcome.2
          confidence := confidence
          position_size := if action ≠ TradeAction.NONE then riskAssessment.recommended_size else 0
          reasoning := generateTradeReasoning strategy scoring.breakdown riskAssessment intelligence
          strategy := strategy
          execution_urgency := executionUrgency }
      risk_assessment := riskAssessment
      scoring_breakdown := scoring.breakdown
      total_score := scoring.totalScore
      market_filters_passed := true
      recommended_for_execution :=
        decide (action ≠ TradeAction.NONE) && decide (70 ≤ confidence) }
  else noneFilterOut reasons

/-! ## Concrete inputs used by scenario and counterexample theorems -/

/-- A market passing every eligibility filter, priced at 0 with deep liquidity. -/
def cexMarket : MarketContext :=
  { marketId := "mkt-1", title := "t", currentPrice := 0, impliedProbability := 0
    liquidity := 10000, volume24h := 2000, timeToClose := 64800000, spread := 0
    orderBookEnabled := true }

/-- An intelligence bundle with maximal positive sentiment and confidence. -/
def cexIntelligence : IntelligenceData :=
  { newsIntelligence :=
      { sentiment_score := 1, confidence := 1, breaking_news := true
        news_count := 10, source_credibility := 1 }
    socialIntelligence :=
      { twitter_sentiment := 1, reddit_sentiment := 1, engagement_momentum := 0
        trending_topics := [], influencer_signals := [] }
    marketIntelligence :=
      { technical_signals :=
          { price_momentum := 1, volume_trend := 1, market_efficiency := 1 }
        cross_market_signals :=
          { correlation_score := 0, consensus_direction := ConsensusDirection.neutral } } }

/-- The scenario-A market: liquidity 500 against the 1000 minimum, all other
filters passing. -/
def scenarioAMarket : MarketContext := { cexMarket with liquidity := 500 }

theorem cexMarket_valid : ValidMarket cexMarket := by
  norm_num [ValidMarket, cexMarket]

theorem cexIntelligence_valid : ValidIntelligence cexIntelligence := by
  norm_num [ValidIntelligence, cexIntelligence]

theorem cex_sentimentEdge : calculateSentimentEdge cexIntelligence cexMarket = 5/3 := by
  have h : |(1:ℚ) * 0.3 + 1 * 0.4 + 1 * 0.3 - ((0:ℚ) - 0.5) * 2| = 2 := by
    rw [abs_of_nonneg] <;> norm_num
  simp only [calculateSentimentEdge, cexIntelligence, cexMarket]
  rw [h]
  norm_num

/-! ## Factor bound lemmas -/

theorem sentimentEdge_bound_core (a b c p conf : ℚ)
    (ha : -1 ≤ a) (ha1 : a ≤ 1) (hb : -1 ≤ b) (hb1 : b ≤ 1)
    (hc : -1 ≤ c) (hc1 : c ≤ 1) (hp0 : 0 ≤ p) (hp1 : p ≤ 1)
    (hcf0 : 0 ≤ conf) (hcf1 : conf ≤ 1) :
    0 ≤ |a * 0.3 + b * 0.4 + c * 0.3 - (p - 0.5) * 2| * ((conf + 0.8 + 0.7) / 3) ∧
    |a * 0.3 + b * 0.4 + c * 0.3 - (p - 0.5) * 2| * ((conf + 0.8 + 0.7) / 3) ≤ 5/3 := by
  have hgap : |a * 0.3 + b * 0.4 + c * 0.3 - (p - 0.5) * 2| ≤ 2 := by
    rw [abs_le]
    constructor <;> nlinarith
  have hconf0 : 0 ≤ (conf + 0.8 + 0.7) / 3 := by
    apply div_nonneg _ (by norm_num)
    linarith
  have hconf1 : (conf + 0.8 + 0.7) / 3 ≤ 5/6 := by
    rw [div_le_iff (by norm_num : (0:ℚ) < 3)]
    linarith
  refine ⟨mul_nonneg (abs_nonneg _) hconf0, ?_⟩
  calc |a * 0.3 + b * 0.4 + c * 0.3 - (p - 0.5) * 2| * ((conf + 0.8 + 0.7) / 3)
      ≤ 2 * (5/6) := mul_le_mul hgap hconf1 hconf0 (by norm_num)
    _ = 5/3 := by norm_num

theorem sentimentEdge_bounds (m : MarketContext) (i : IntelligenceData)
    (hm : ValidMarket m) (hi : ValidIntelligence i) :
    0 ≤ calculateSentimentEdge i m ∧ calculateSentimentEdge i m ≤ 5/3 := by
  obtain ⟨hp0, hp1, -, -, -, -, -, -⟩ := hm
  obtain ⟨⟨hn0, hn1⟩, ⟨hc0, hc1⟩, -, -, ⟨ht0, ht1⟩, ⟨hr0, hr1⟩, -⟩ := hi
  simp only [calculateSentimentEdge]
  exact sentimentEdge_bound_core _ _ _ _ _ hn0 hn1 ht0 ht1 hr0 hr1 hp0 hp1 hc0 hc1

theorem technicalMomentum_bounds (i : IntelligenceData) :
    0 ≤ calculateTechnicalMomentum i ∧ calculateTechnicalMomentum i ≤ 1 := by
  simp only [calculateTechnicalMomentum]
  exact ⟨le_max_left 0 _, max_le (by norm_num) (min_le_left 1 _)⟩

theorem liquidityQuality_bounds (m : MarketContext) (hm : ValidMarket m) :
    0 ≤ calculateLiquidityQuality m ∧ calculateLiquidityQuality m ≤ 1 := by
  obtain ⟨-, -, -, -, hliq, hvol, -, hspread⟩ := hm
  simp only [calculateLiquidityQuality]
  have h1a : 0 ≤ min 1 (m.liquidity / 10000) :=
    le_min (by norm_num) (div_nonneg hliq (by norm_num))
  have h1b : min 1 (m.liquidity / 10000) ≤ 1 := min_le_left _ _
  have h2a : 0 ≤ max 0 (1 - m.spread / 0.05) := le_max_left _ _
  have h2b : max 0 (1 - m.spread / 0.05) ≤ 1 := by
    have hd : 0 ≤ m.spread / 0.05 := div_nonneg hspread (by norm_num)
    exact max_le (by norm_num) (by linarith)
  have h3a : 0 ≤ min 1 (m.volume24h / 2000) :=
    le_min (by norm_num) (div_nonneg hvol (by norm_num))
  have h3b : min 1 (m.volume24h / 2000) ≤ 1 := min_le_left _ _
  constructor <;> nlinarith

theorem timingUrgency_bounds (m : MarketContext) :
    0 ≤ calculateTimingUrgency m ∧ calculateTimingUrgency m ≤ 1 := by
  simp only [calculateTimingUrgency]
  split_ifs <;> norm_num

theorem newsCatalyst_bounds (i : IntelligenceData) (hi : ValidIntelligence i) :
    0 ≤ calculateNewsCatalyst i ∧ calculateNewsCatalyst i ≤ 1 := by
  obtain ⟨-, -, hcount, ⟨hcr0, hcr1⟩, -⟩ := hi
  simp only [calculateNewsCatalyst]
  have hc : 0 ≤ (if i.newsIntelligence.breaking_news then (0.4:ℚ) else 0) := by
    split <;> norm_num
  have hv : 0 ≤ min 0.3 (i.newsIntelligence.news_count / 10) :=
    le_min (by norm_num) (div_nonneg hcount (by norm_num))
  have hcr : 0 ≤ i.newsIntelligence.source_credibility * 0.3 := by nlinarith
  exact ⟨le_min (by norm_num) (by linarith), min_le_left 1 _⟩

/-- C2 (amended): for every input accepted by the decision tool's input schema,
technical momentum, liquidity quality, timing urgency and catalyst strength are
normalized to [0,1], while the sentiment edge is only guaranteed to lie in
[0, 5/3] — it is not normalized to [0,1]. -/
theorem C2_theorem (m : MarketContext) (i : IntelligenceData)
    (hm : ValidMarket m) (hi : ValidIntelligence i) :
    (0 ≤ calculateSentimentEdge i m ∧ calculateSentimentEdge i m ≤ 5/3) ∧
    (0 ≤ calculateTechnicalMomentum i ∧ calculateTechnicalMomentum i ≤ 1) ∧
    (0 ≤ calculateLiquidityQuality m ∧ calculateLiquidityQuality m ≤ 1) ∧
    (0 ≤ calculateTimingUrgency m ∧ calculateTimingUrgency m ≤ 1) ∧
    (0 ≤ calculateNewsCatalyst i ∧ calculateNewsCatalyst i ≤ 1) :=
  ⟨sentimentEdge_bounds m i hm hi, technicalMomentum_bounds i,
    liquidityQuality_bounds m hm, timingUrgency_bounds m, newsCatalyst_bounds i hi⟩

/-- C2 counterexample: a schema-valid input on which the sentiment edge factor
computed by the decision engine equals 5/3, exceeding 1, so the claim that all
five factors are normalized to [0,1] is false. -/
theorem C2_counterexample :
    ValidMarket cexMarket ∧ ValidIntelligence cexIntelligence ∧
    calculateSentimentEdge cexIntelligence cexMarket = 5/3 ∧
    ¬ (calculateSentimentEdge cexIntelligence cexMarket ≤ 1) := by
  refine ⟨cexMarket_valid, cexIntelligence_valid, cex_sentimentEdge, ?_⟩
  rw [cex_sentimentEdge]
  norm_num

/-- C2 witness: the amended bounds instantiated at the concrete schema-valid
input used throughout. -/
theorem C2_witness :
    (0 ≤ calculateSentimentEdge cexIntelligence cexMarket ∧
      calculateSentimentEdge cexIntelligence cexMarket ≤ 5/3) ∧
    (0 ≤ calculateTechnicalMomentum cexIntelligence ∧
      calculateTechnicalMomentum cexIntelligence ≤ 1) ∧
    (0 ≤ calculateLiquidityQuality cexMarket ∧ calculateLiquidityQuality cexMarket ≤ 1) ∧
    (0 ≤ calculateTimingUrgency cexMarket ∧ calculateTimingUrgency cexMarket ≤ 1) ∧
    (0 ≤ calculateNewsCatalyst cexIntelligence ∧ calculateNewsCatalyst cexIntelligence ≤ 1) :=
  C2_theorem cexMarket cexIntelligence cexMarket_valid cexIntelligence_valid

/-! ## C1: composite confidence -/

theorem cexMarket_filters_pass : (failedFilterReasons cexMarket).isEmpty = true := by
  norm_num [failedFilterReasons, cexMarket, List.isEmpty]

theorem cex_technicalMomentum : calculateTechnicalMomentum cexIntelligence = 1 := by
  norm_num [calculateTechnicalMomentum, cexIntelligence, min_def, max_def]

theorem cex_liquidityQuality : calculateLiquidityQuality cexMarket = 1 := by
  norm_num [calculateLiquidityQuality, cexMarket, min_def, max_def]

theorem cex_timingUrgency : calculateTimingUrgency cexMarket = 1 := by
  norm_num [calculateTimingUrgency, cexMarket]

theorem cex_newsCatalyst : calculateNewsCatalyst cexIntelligence = 1 := by
  norm_num [calculateNewsCatalyst, cexIntelligence, min_def]

theorem cex_totalScore :
    (calculateMultiFactorScore cexIntelligence cexMarket).totalScore = 19/15 := by
  simp only [calculateMultiFactorScore, cex_sentimentEdge, cex_technicalMomentum,
    cex_liquidityQuality, cex_timingUrgency, cex_newsCatalyst]
  norm_num [weightedTotal, SCORING_WEIGHTS]

theorem cex_confidence :
    (marketDecisionExecute cexMarket cexIntelligence).decision.confidence = 127 := by
  simp only [marketDecisionExecute, cexMarket_filters_pass, if_true, cex_totalScore]
  rw [show (19:ℚ)/15 * 100 = 380/3 by norm_num]
  exact jsRound_eq _ 127 (by norm_num) (by norm_num)

/-- C1 (amended): for every accepted input that passes the eligibility filters,
the composite confidence equals round(100 × Σ weight_i × factor_i), the five
fixed weights {0.40, 0.25, 0.20, 0.10, 0.05} sum to 1.0, and factors
{0.8, 0.6, 0.9, 0.5, 0.3} yield confidence exactly 72, eligible for trade
(≥ 70); the result is NOT clamped to [0,100] (see the counterexample). -/
theorem C1_theorem :
    (SCORING_WEIGHTS.sentiment_edge + SCORING_WEIGHTS.technical_momentum +
      SCORING_WEIGHTS.liquidity_quality + SCORING_WEIGHTS.timing_urgency +
      SCORING_WEIGHTS.news_catalyst = 1) ∧
    (∀ (m : MarketContext) (i : IntelligenceData), ValidMarket m → ValidIntelligence i →
      (failedFilterReasons m).isEmpty = true →
      (marketDecisionExecute m i).decision.confidence =
        jsRound (100 * weightedTotal (calculateMultiFactorScore i m).breakdown)) ∧
    (jsRound (100 * weightedTotal
        { sentiment_edge := 0.8, technical_momentum := 0.6, liquidity_quality := 0.9
          timing_urgency := 0.5, news_catalyst := 0.3 }) = 72 ∧ (70:ℤ) ≤ 72) := by
  refine ⟨by norm_num [SCORING_WEIGHTS], ?_, ?_, by norm_num⟩
  · intro m i _ _ hf
    simp only [marketDecisionExecute, hf, if_true, calculateMultiFactorScore]
    rw [mul_comm]
  · rw [show (100:ℚ) * weightedTotal
        { sentiment_edge := 0.8, technical_momentum := 0.6, liquidity_quality := 0.9
          timing_urgency := 0.5, news_catalyst := 0.3 } = 715/10 by
      norm_num [weightedTotal, SCORING_WEIGHTS]]
    exact jsRound_eq _ 72 (by norm_num) (by norm_num)

/-- C1 counterexample: a schema-valid, filter-passing input on which the
decision tool returns confidence 127, so the composite confidence is not
clamped to [0,100]. -/
theorem C1_counterexample :
    ValidMarket cexMarket ∧ ValidIntelligence cexIntelligence ∧
    (failedFilterReasons cexMarket).isEmpty = true ∧
    (marketDecisionExecute cexMarket cexIntelligence).decision.confidence = 127 ∧
    ¬ ((marketDecisionExecute cexMarket cexIntelligence).decision.confidence ≤ 100) := by
  refine ⟨cexMarket_valid, cexIntelligence_valid, cexMarket_filters_pass, cex_confidence, ?_⟩
  rw [cex_confidence]
  norm_num

/-- C1 witness: the weighted-round formula instantiated at the concrete
schema-valid, filter-passing input. -/
theorem C1_witness :
    (marketDecisionExecute cexMarket cexIntelligence).decision.confidence =
      jsRound (100 * weightedTotal
        (calculateMultiFactorScore cexIntelligence cexMarket).breakdown) :=
  C1_theorem.2.1 cexMarket cexIntelligence cexMarket_valid cexIntelligence_valid
    cexMarket_filters_pass

/-! ## C7: filter failure rationale -/

theorem string_data_append (s t : String) : (s ++ t).data = s.data ++ t.data := rfl

theorem mem_joinWith_sub (sep r : String) (l : List String) (h : r ∈ l) :
    r.data <:+: (joinWith sep l).data := by
  induction l with
  | nil => cases h
  | cons x xs ih =>
    cases xs with
    | nil =>
      rcases List.mem_singleton.mp h with rfl
      exact List.infix_refl _
    | cons y ys =>
      rcases List.mem_cons.mp h with rfl | hmem
      · have e : (joinWith sep (r :: y :: ys)).data
            = r.data ++ (sep.data ++ (joinWith sep (y :: ys)).data) := by
          show (r ++ sep ++ joinWith sep (y :: ys)).data = _
          rw [string_data_append, string_data_append, List.append_assoc]
        rw [e]
        exact List.IsPrefix.isInfix (List.prefix_append _ _)
      · refine List.IsInfix.trans (ih hmem) ?_
        have e : (joinWith sep (x :: y :: ys)).data
            = (x.data ++ sep.data) ++ (joinWith sep (y :: ys)).data := by
          show (x ++ sep ++ joinWith sep (y :: ys)).data = _
          rw [string_data_append, string_data_append]
        rw [e]
        exact List.IsSuffix.isInfix (List.suffix_append _ _)

theorem reason_named_in_rationale (r : String) (l : List String) (h : r ∈ l) :
    r.data <:+: ("Market filters failed: " ++ joinWith ", " l).data := by
  refine List.IsInfix.trans (mem_joinWith_sub ", " r l h) ?_
  rw [string_data_append]
  exact List.IsSuffix.isInfix (List.suffix_append _ _)

theorem mem_failedFilterReasons_liquidity (m : MarketContext) :
    "Insufficient liquidity" ∈ failedFilterReasons m ↔ m.liquidity < 1000 := by
  simp only [failedFilterReasons, List.mem_append]
  split_ifs <;> simp_all

theorem mem_failedFilterReasons_time (m : MarketContext) :
    "Too much time until close" ∈ failedFilterReasons m ↔
      72 * 60 * 60 * 1000 < m.timeToClose := by
  simp only [failedFilterReasons, List.mem_append]
  split_ifs <;> simp_all

theorem mem_failedFilterReasons_orderBook (m : MarketContext) :
    "Order book not enabled" ∈ failedFilterReasons m ↔ m.orderBookEnabled = false := by
  simp only [failedFilterReasons, List.mem_append]
  split_ifs <;> simp_all

theorem mem_failedFilterReasons_volume (m : MarketContext) :
    "Insufficient daily volume" ∈ failedFilterReasons m ↔ m.volume24h < 500 := by
  simp only [failedFilterReasons, List.mem_append]
  split_ifs <;> simp_all

theorem mem_failedFilterReasons_spread (m : MarketContext) :
    "Spread too wide" ∈ failedFilterReasons m ↔ 0.05 < m.spread := by
  simp only [failedFilterReasons, List.mem_append]
  split_ifs <;> simp_all

theorem scenarioA_reasons : failedFilterReasons scenarioAMarket = ["Insufficient liquidity"] := by
  norm_num [failedFilterReasons, scenarioAMarket, cexMarket]

/-- C7: the decision tool evaluates all five eligibility filters without
short-circuiting (the reason list contains a filter's message exactly when
that filter fails), and any failure yields action NONE with confidence 0 and a
rationale naming every failed filter; liquidity 500 against the 1000 minimum
yields a NONE decision whose rationale contains "liquidity". -/
theorem C7_theorem :
    (∀ (m : MarketContext) (i : IntelligenceData),
      (failedFilterReasons m).isEmpty = false →
      (marketDecisionExecute m i).decision.action = TradeAction.NONE ∧
      (marketDecisionExecute m i).decision.confidence = 0 ∧
      ∀ r ∈ failedFilterReasons m,
        r.data <:+: (marketDecisionExecute m i).decision.reasoning.data) ∧
    (∀ m : MarketContext,
      ("Insufficient liquidity" ∈ failedFilterReasons m ↔ m.liquidity < 1000) ∧
      ("Too much time until close" ∈ failedFilterReasons m ↔
        72 * 60 * 60 * 1000 < m.timeToClose) ∧
      ("Order book not enabled" ∈ failedFilterReasons m ↔ m.orderBookEnabled = false) ∧
      ("Insufficient daily volume" ∈ failedFilterReasons m ↔ m.volume24h < 500) ∧
      ("Spread too wide" ∈ failedFilterReasons m ↔ 0.05 < m.spread)) ∧
    ((marketDecisionExecute scenarioAMarket cexIntelligence).decision.action =
        TradeAction.NONE ∧
      ("liquidity").data <:+:
        (marketDecisionExecute scenarioAMarket cexIntelligence).decision.reasoning.data) := by
  refine ⟨?_, ?_, ?_, ?_⟩
  · intro m i hf
    simp only [marketDecisionExecute, hf, Bool.false_eq_true, if_false, noneFilterOut]
    exact ⟨trivial, trivial, fun r hr => reason_named_in_rationale r _ hr⟩
  · intro m
    exact ⟨mem_failedFilterReasons_liquidity m, mem_failedFilterReasons_time m,
      mem_failedFilterReasons_orderBook m, mem_failedFilterReasons_volume m,
      mem_failedFilterReasons_spread m⟩
  · simp only [marketDecisionExecute, scenarioA_reasons, List.isEmpty, Bool.false_eq_true,
      if_false, noneFilterOut]
  · have hrsn : (marketDecisionExecute scenarioAMarket cexIntelligence).decision.reasoning
        = "Market filters failed: Insufficient liquidity" := by
      simp only [marketDecisionExecute, scenarioA_reasons, List.isEmpty, Bool.false_eq_true,
        if_false, noneFilterOut, joinWith]
      rfl
    rw [hrsn]
    decide

theorem scenarioA_filters_fail : (failedFilterReasons scenarioAMarket).isEmpty = false := by
  rw [scenarioA_reasons]
  rfl

theorem scenarioA_liq_mem : "Insufficient liquidity" ∈ failedFilterReasons scenarioAMarket := by
  rw [scenarioA_reasons]
  exact List.mem_singleton.mpr rfl

/-- C7 witness: the failure behaviour instantiated at the scenario-A market
(liquidity 500 below the 1000 minimum). -/
theorem C7_witness :
    (marketDecisionExecute scenarioAMarket cexIntelligence).decision.action =
        TradeAction.NONE ∧
    (marketDecisionExecute scenarioAMarket cexIntelligence).decision.confidence = 0 ∧
    ("Insufficient liquidity").data <:+:
      (marketDecisionExecute scenarioAMarket cexIntelligence).decision.reasoning.data :=
  ⟨(C7_theorem.1 scenarioAMarket cexIntelligence scenarioA_filters_fail).1,
    (C7_theorem.1 scenarioAMarket cexIntelligence scenarioA_filters_fail).2.1,
    (C7_theorem.1 scenarioAMarket cexIntelligence scenarioA_filters_fail).2.2
      "Insufficient liquidity" scenarioA_liq_mem⟩

/-! ## C10: the rule-based tool's action range -/

/-- C10: for every input the rule-based decision tool's action is BUY, HOLD or
NONE — never SELL (a BUY carries outcome "Yes" or "No"); and whenever the
action is NONE the returned position size is 0. -/
theorem C10_theorem (m : MarketContext) (i : IntelligenceData) :
    (marketDecisionExecute m i).decision.action ≠ TradeAction.SELL ∧
    ((marketDecisionExecute m i).decision.action = TradeAction.BUY ∨
      (marketDecisionExecute m i).decision.action = TradeAction.HOLD ∨
      (marketDecisionExecute m i).decision.action = TradeAction.NONE) ∧
    ((marketDecisionExecute m i).decision.action = TradeAction.BUY →
      (marketDecisionExecute m i).decision.outcome = some "Yes" ∨
      (marketDecisionExecute m i).decision.outcome = some "No") ∧
    ((marketDecisionExecute m i).decision.action = TradeAction.NONE →
      (marketDecisionExecute m i).decision.position_size = 0) := by
  by_cases hf : (failedFilterReasons m).isEmpty
  · simp only [marketDecisionExecute, hf, if_true]
    split_ifs <;> simp_all
  · simp only [marketDecisionExecute, hf, Bool.false_eq_true, if_false, noneFilterOut]
    simp

theorem scenarioA_action_none :
    (marketDecisionExecute scenarioAMarket cexIntelligence).decision.action =
      TradeAction.NONE := by
  simp only [marketDecisionExecute, scenarioA_reasons, List.isEmpty, Bool.false_eq_true,
    if_false, noneFilterOut]

theorem cex_action_buy :
    (marketDecisionExecute cexMarket cexIntelligence).decision.action = TradeAction.BUY := by
  have hjs : jsRound ((calculateMultiFactorScore cexIntelligence cexMarket).totalScore * 100)
      = 127 := by
    rw [cex_totalScore, show (19:ℚ)/15 * 100 = 380/3 by norm_num]
    exact jsRound_eq _ 127 (by norm_num) (by norm_num)
  have hstrat : determineStrategy cexIntelligence cexMarket
      (calculateMultiFactorScore cexIntelligence cexMarket) =
      StrategyTag.breaking_news_hunter := by
    simp only [determineStrategy, calculateMultiFactorScore, cex_newsCatalyst,
      cex_sentimentEdge]
    norm_num [cexIntelligence]
  have hagg : aggregatedDirectionalSentiment cexIntelligence = 1 := by
    norm_num [aggregatedDirectionalSentiment, cexIntelligence]
  simp only [marketDecisionExecute, cexMarket_filters_pass, if_true, hstrat, hjs, hagg]
  norm_num
  rfl

/-- C10 witness: at the scenario-A input the action is NONE, not SELL, and the
position size is 0; at the high-confidence input the action is BUY with
outcome "Yes" or "No". -/
theorem C10_witness :
    (marketDecisionExecute scenarioAMarket cexIntelligence).decision.action ≠
        TradeAction.SELL ∧
    (marketDecisionExecute scenarioAMarket cexIntelligence).decision.position_size = 0 ∧
    ((marketDecisionExecute cexMarket cexIntelligence).decision.outcome = some "Yes" ∨
      (marketDecisionExecute cexMarket cexIntelligence).decision.outcome = some "No") :=
  ⟨(C10_theorem scenarioAMarket cexIntelligence).1,
    (C10_theorem scenarioAMarket cexIntelligence).2.2.2 scenarioA_action_none,
    (C10_theorem cexMarket cexIntelligence).2.2.1 cex_action_buy⟩

/-! ## Wallet security manager (execution agent module) -/

/-- The mutable security context of the wallet security manager.  The
JavaScript date string `lastResetDate` is modelled as a day number. -/
structure WalletSecurityContext where
  dailySpentAmount : ℚ
  concurrentTradesCount : Nat
  lastResetDate : Nat
  emergencyStopActive : Bool

/-- `SECURITY_LIMITS.maxDailySpend`. -/
def SECURITY_maxDailySpend : ℚ := 300

/-- `SECURITY_LIMITS.maxSingleTrade`. -/
def SECURITY_maxSingleTrade : ℚ := 100

/-- `SECURITY_LIMITS.maxConcurrentTrades`. -/
def SECURITY_maxConcurrentTrades : Nat := 3

/-- Structured rejection reasons of `validateTradeAmount`, carrying the numeric
values interpolated into the source's message strings. -/
inductive RejectReason
  | emergencyStop
  | exceedsSingleLimit (amount : ℚ) (limit : ℚ)
  | exceedsDailyLimit (dailySpent : ℚ) (tradeAmount : ℚ) (limit : ℚ)
  | concurrentLimit (limit : Nat)
deriving DecidableEq

/-- Rendering of an integral rational the way JavaScript string interpolation
prints these amounts (all amounts in the scenarios are integers). -/
def ratStr (q : ℚ) : String :=
  if q.den = 1 then toString q.num else toString q.num ++ "/" ++ toString q.den

/-- The rejection message strings of `validateTradeAmount`. -/
def renderReason : RejectReason → String
  | RejectReason.emergencyStop => "Emergency stop is active"
  | RejectReason.exceedsSingleLimit a l =>
      "Trade amount $" ++ ratStr a ++ " exceeds max single trade limit $" ++ ratStr l
  | RejectReason.exceedsDailyLimit spent a l =>
      "Trade would exceed daily spending limit. Daily spent: $" ++ ratStr spent ++
        ", Trade: $" ++ ratStr a ++ ", Limit: $" ++ ratStr l
  | RejectReason.concurrentLimit l =>
      "Maximum concurrent trades limit reached: " ++ toString l

/-- The day-rollover reset inside `validateTradeAmount`. -/
def rolloverDay (st : WalletSecurityContext) (today : Nat) : WalletSecurityContext :=
  if today ≠ st.lastResetDate then
    { st with dailySpentAmount := 0, lastResetDate := today }
  else st

/-- `validateTradeAmount` of the wallet security manager: emergency stop, day
rollover, per-trade cap, daily cap, concurrent cap, with early returns. -/
def validateTradeAmount (st : WalletSecurityContext) (today : Nat) (amount : ℚ) :
    WalletSecurityContext × Option RejectReason :=
  if st.emergencyStopActive then (st, some RejectReason.emergencyStop)
  else
    let st2 := rolloverDay st today
    if SECURITY_maxSingleTrade < amount then
      (st2, some (RejectReason.exceedsSingleLimit amount SECURITY_maxSingleTrade))
    else if SECURITY_maxDailySpend < st2.dailySpentAmount + amount then
      (st2, some (RejectReason.exceedsDailyLimit st2.dailySpentAmount amount
        SECURITY_maxDailySpend))
    else if SECURITY_maxConcurrentTrades ≤ st2.concurrentTradesCount then
      (st2, some (RejectReason.concurrentLimit SECURITY_maxConcurrentTrades))
    else (st2, Option.none)

/-- The per-trade cap check, as the spec words it. -/
def checkPerTradeCap (st : WalletSecurityContext) (amount : ℚ) : Option RejectReason :=
  if SECURITY_maxSingleTrade < amount then
    some (RejectReason.exceedsSingleLimit amount SECURITY_maxSingleTrade)
  else Option.none

/-- The daily cap check, as the spec words it. -/
def checkDailyCap (st : WalletSecurityContext) (amount : ℚ) : Option RejectReason :=
  if SECURITY_maxDailySpend < st.dailySpentAmount + amount then
    some (RejectReason.exceedsDailyLimit st.dailySpentAmount amount SECURITY_maxDailySpend)
  else Option.none

/-- The concurrent-trade cap check, as the spec words it. -/
def checkConcurrentCap (st : WalletSecurityContext) (amount : ℚ) : Option RejectReason :=
  if SECURITY_maxConcurrentTrades ≤ st.concurrentTradesCount then
    some (RejectReason.concurrentLimit SECURITY_maxConcurrentTrades)
  else Option.none

/-- Validation as the spec words it: the emergency-stop check, then the day
rollover, then the capped checks tried in the stated order with the first
failing check supplying the rejection reason. -/
def validateSpecOrder (st : WalletSecurityContext) (today : Nat) (amount : ℚ) :
    WalletSecurityContext × Option RejectReason :=
  if st.emergencyStopActive then (st, some RejectReason.emergencyStop)
  else
    let st2 := rolloverDay st today
    (st2, [checkPerTradeCap, checkDailyCap, checkConcurrentCap].findSome?
      (fun chk => chk st2 amount))

/-- The scenario-C security state: 250 already spent today, nothing else amiss. -/
def scenarioCState : WalletSecurityContext :=
  { dailySpentAmount := 250, concurrentTradesCount := 0, lastResetDate := 0
    emergencyStopActive := false }

theorem ratStr_250 : ratStr 250 = "250" := by
  have hd : (250:ℚ).den = 1 := by norm_num
  have hn : (250:ℚ).num = 250 := by norm_num
  rw [ratStr, if_pos hd, hn]
  decide

theorem ratStr_60 : ratStr 60 = "60" := by
  have hd : (60:ℚ).den = 1 := by norm_num
  have hn : (60:ℚ).num = 60 := by norm_num
  rw [ratStr, if_pos hd, hn]
  decide

theorem ratStr_300 : ratStr 300 = "300" := by
  have hd : (300:ℚ).den = 1 := by norm_num
  have hn : (300:ℚ).num = 300 := by norm_num
  rw [ratStr, if_pos hd, hn]
  decide

theorem scenarioC_daily_reason :
    renderReason (RejectReason.exceedsDailyLimit 250 60 300) =
      "Trade would exceed daily spending limit. Daily spent: $250, Trade: $60, Limit: $300" := by
  simp only [renderReason, ratStr_250, ratStr_60, ratStr_300]
  rfl

set_option maxRecDepth 8000 in
/-- C5: the security manager's validation equals, on every state, date and
amount, the spec-ordered first-failing-check procedure (emergency stop, day
rollover, per-trade cap, daily cap, concurrent cap); and with dailySpent 250,
daily cap 300 and requested amount 60 it rejects with the daily-cap reason
whose message cites 250, 60 and 300. -/
theorem C5_theorem :
    (∀ (st : WalletSecurityContext) (today : Nat) (amount : ℚ),
      validateTradeAmount st today amount = validateSpecOrder st today amount) ∧
    (validateTradeAmount scenarioCState 0 60).2 =
      some (RejectReason.exceedsDailyLimit 250 60 300) ∧
    ("250").data <:+: (renderReason (RejectReason.exceedsDailyLimit 250 60 300)).data ∧
    ("60").data <:+: (renderReason (RejectReason.exceedsDailyLimit 250 60 300)).data ∧
    ("300").data <:+: (renderReason (RejectReason.exceedsDailyLimit 250 60 300)).data := by
  refine ⟨?_, ?_, ?_, ?_, ?_⟩
  · intro st today amount
    simp only [validateTradeAmount, validateSpecOrder, List.findSome?, checkPerTradeCap,
      checkDailyCap, checkConcurrentCap]
    split_ifs <;> rfl
  · norm_num [validateTradeAmount, rolloverDay, scenarioCState, SECURITY_maxSingleTrade,
      SECURITY_maxDailySpend]
  · rw [scenarioC_daily_reason]
    decide
  · rw [scenarioC_daily_reason]
    decide
  · rw [scenarioC_daily_reason]
    decide

/-! ## Trade execution pipeline (execution agent module) -/

/-- Security-ledger interactions observed during one run of the trade
execution tool. -/
inductive SecEvent
  | recordStart (amount : ℚ)
  | recordEnd
deriving DecidableEq

/-- Trade record statuses. -/
inductive TradeStatus
  | PENDING
  | EXECUTED
  | FAILED
  | CANCELLED
deriving DecidableEq

/-- Oracle for the external collaborators of one execution run: the wallet
environment variable, the EVM balance call, the database and, per attempt
index, the approval and submission calls (an `Except.error` is a thrown or
failed call; a successful submission may or may not report a transaction
hash). -/
structure ExecEnv where
  walletAddressPresent : Bool
  balanceCall : Except String ℚ
  dbCreateOk : Bool
  dbUpdateOk : Bool
  approval : Nat → Except String Unit
  trade : Nat → Except String (Option String)

/-- `EXECUTION_CONFIG.maxRetries`. -/
def EXECUTION_maxRetries : Nat := 3

/-- `EXECUTION_CONFIG.retryDelayMs`. -/
def EXECUTION_retryDelayMs : Nat := 5000

/-- One iteration body of the execution attempt loop: token approval, then the
submission call, with the approval failure message prefix of the source. -/
def attemptOnce (env : ExecEnv) (k : Nat) : Except String (Option String) :=
  match env.approval k with
  | Except.error e => Except.error ("Token approval failed: " ++ e)
  | Except.ok _ => env.trade k

/-- Result of the retry loop, with bookkeeping of how many times the attempt
body was invoked and how many inter-attempt delays were slept. -/
structure ExecLoopResult where
  success : Bool
  txHash : Option String
  errMsg : Option String
  retryCount : Nat
  attempts : Nat
  delays : Nat
deriving DecidableEq

/-- The retry loop, fuelled: `r` is the source's `retryCount` variable, `d`
counts the sleeps taken so far. -/
def execLoopGo (env : ExecEnv) (maxRetries : Nat) : Nat → Nat → Nat → ExecLoopResult
  | r, d, 0 => ⟨false, Option.none, Option.none, r, r, d⟩
  | r, d, fuel + 1 =>
    match attemptOnce env r with
    | Except.ok h => ⟨true, h, Option.none, r, r + 1, d⟩
    | Except.error e =>
      if r + 1 ≤ maxRetries then execLoopGo env maxRetries (r + 1) (d + 1) fuel
      else ⟨false, Option.none, some e, r + 1, r + 1, d⟩

/-- The execution attempt loop of the trade execution tool (`while retryCount
<= maxRetries && !success`), which runs at most `maxRetries + 1` attempts. -/
def execLoop (env : ExecEnv) : ExecLoopResult :=
  execLoopGo env EXECUTION_maxRetries 0 0 (EXECUTION_maxRetries + 1)

/-- Observable outcome of one synchronous run of the trade execution tool.
`dbWrites` lists the synchronous trade-record writes (the detached
confirmation watch's later EXECUTED/FAILED write is not part of the
synchronous run). -/
structure TradeRunOut where
  secEvents : List SecEvent
  dbWrites : List TradeStatus
  success : Bool
  errMsg : Option String
  retryCount : Nat
  attempts : Nat
  delays : Nat
  monitoringActive : Bool
deriving DecidableEq

/-- The `execute` body of the trade execution tool: security validation, wallet
prechecks, `recordTradeStart`, PENDING record creation, the retry loop, the
synchronous FAILED write-back, `recordTradeEnd`, with the outer catch also
calling `recordTradeEnd` on any thrown error. -/
def tradeExecutionRun (st : WalletSecurityContext) (today : Nat) (amount : ℚ)
    (env : ExecEnv) : TradeRunOut :=
  match (validateTradeAmount st today amount).2 with
  | some reason =>
    ⟨[], [], false, some (renderReason reason), 0, 0, 0, false⟩
  | Option.none =>
    if env.walletAddressPresent = false then
      ⟨[SecEvent.recordEnd], [], false,
        some "POLYMARKET_WALLET_ADDRESS environment variable is required - no mock addresses allowed",
        0, 0, 0, false⟩
    else
      match env.balanceCall with
      | Except.error e =>
        ⟨[SecEvent.recordEnd], [], false, some ("Wallet balance check failed: " ++ e),
          0, 0, 0, false⟩
      | Except.ok bal =>
        if bal < amount then
          ⟨[SecEvent.recordEnd], [], false,
            some ("Insufficient USDC balance: " ++ ratStr bal ++ " < " ++ ratStr amount),
            0, 0, 0, false⟩
        else if env.dbCreateOk = false then
          ⟨[SecEvent.recordStart amount, SecEvent.recordEnd], [], false,
            some "Failed to create trade record", 0, 0, 0, false⟩
        else
          let res := execLoop env
          if res.success then
            match res.txHash with
            | some _ =>
              ⟨[SecEvent.recordStart amount, SecEvent.recordEnd], [TradeStatus.PENDING],
                true, res.errMsg, res.retryCount, res.attempts, res.delays, true⟩
            | Option.none =>
              if env.dbUpdateOk then
                ⟨[SecEvent.recordStart amount, SecEvent.recordEnd],
                  [TradeStatus.PENDING, TradeStatus.FAILED],
                  true, res.errMsg, res.retryCount, res.attempts, res.delays, false⟩
              else
                ⟨[SecEvent.recordStart amount, SecEvent.recordEnd], [TradeStatus.PENDING],
                  false, some "Failed to update trade record",
                  res.retryCount, res.attempts, res.delays, false⟩
          else
            if env.dbUpdateOk then
              ⟨[SecEvent.recordStart amount, SecEvent.recordEnd],
                [TradeStatus.PENDING, TradeStatus.FAILED],
                false, res.errMsg, res.retryCount, res.attempts, res.delays, false⟩
            else
              ⟨[SecEvent.recordStart amount, SecEvent.recordEnd], [TradeStatus.PENDING],
                false, some "Failed to update trade record",
                res.retryCount, res.attempts, res.delays, false⟩

/-- Whether a ledger event is `recordEnd`. -/
def isEndEvent : SecEvent → Bool
  | SecEvent.recordEnd => true
  | _ => false

/-- Whether a ledger event is `recordStart`. -/
def isStartEvent : SecEvent → Bool
  | SecEvent.recordStart _ => true
  | _ => false

theorem execLoopGo_succ (env : ExecEnv) (maxRetries r d fuel : Nat) :
    execLoopGo env maxRetries r d (fuel + 1) =
      match attemptOnce env r with
      | Except.ok h => ⟨true, h, Option.none, r, r + 1, d⟩
      | Except.error e =>
        if r + 1 ≤ maxRetries then execLoopGo env maxRetries (r + 1) (d + 1) fuel
        else ⟨false, Option.none, some e, r + 1, r + 1, d⟩ := rfl

theorem execLoop_all_fail (env : ExecEnv) (e0 e1 e2 e3 : String)
    (h0 : attemptOnce env 0 = Except.error e0)
    (h1 : attemptOnce env 1 = Except.error e1)
    (h2 : attemptOnce env 2 = Except.error e2)
    (h3 : attemptOnce env 3 = Except.error e3) :
    execLoop env = ⟨false, Option.none, some e3, 4, 4, 3⟩ := by
  have c0 : execLoop env = execLoopGo env 3 1 1 3 := by
    show execLoopGo env 3 0 0 (3 + 1) = _
    rw [execLoopGo_succ, h0]
    norm_num
  have c1 : execLoopGo env 3 1 1 3 = execLoopGo env 3 2 2 2 := by
    show execLoopGo env 3 1 1 (2 + 1) = _
    rw [execLoopGo_succ, h1]
    norm_num
  have c2 : execLoopGo env 3 2 2 2 = execLoopGo env 3 3 3 1 := by
    show execLoopGo env 3 2 2 (1 + 1) = _
    rw [execLoopGo_succ, h2]
    norm_num
  have c3 : execLoopGo env 3 3 3 1 = ⟨false, Option.none, some e3, 4, 4, 3⟩ := by
    show execLoopGo env 3 3 3 (0 + 1) = _
    rw [execLoopGo_succ, h3]
    norm_num
  rw [c0, c1, c2, c3]

/-- C6: with maxRetries = 3, a backend whose approval/submission fails on every
attempt yields exactly 4 invocations of the attempt body with 3 inter-attempt
delays, a synchronous FAILED write-back on the persisted trade record, and a
returned result carrying the last attempt's error message and retry count 4. -/
theorem C6_theorem (st : WalletSecurityContext) (today : Nat) (amount : ℚ) (env : ExecEnv)
    (bal : ℚ) (e0 e1 e2 e3 : String)
    (hv : (validateTradeAmount st today amount).2 = Option.none)
    (hw : env.walletAddressPresent = true)
    (hb : env.balanceCall = Except.ok bal)
    (hba : ¬ bal < amount)
    (hdb : env.dbCreateOk = true)
    (hdu : env.dbUpdateOk = true)
    (h0 : attemptOnce env 0 = Except.error e0)
    (h1 : attemptOnce env 1 = Except.error e1)
    (h2 : attemptOnce env 2 = Except.error e2)
    (h3 : attemptOnce env 3 = Except.error e3) :
    (tradeExecutionRun st today amount env).attempts = 4 ∧
    (tradeExecutionRun st today amount env).delays = 3 ∧
    (tradeExecutionRun st today amount env).dbWrites =
      [TradeStatus.PENDING, TradeStatus.FAILED] ∧
    (tradeExecutionRun st today amount env).errMsg = some e3 ∧
    (tradeExecutionRun st today amount env).retryCount = 4 ∧
    (tradeExecutionRun st today amount env).success = false := by
  have hloop := execLoop_all_fail env e0 e1 e2 e3 h0 h1 h2 h3
  simp only [tradeExecutionRun, hv, hw, hb, if_neg hba, hdb, hdu, hloop]
  simp

/-- C4 (amended): every run that passes security validation invokes the
security manager's recordEnd exactly once, whatever the environment does, a
run rejected by validation touches the ledger not at all, and recordStart is
invoked at most once — but recordEnd is NOT guaranteed to be preceded by
recordStart (see the counterexample: a run whose wallet precheck throws calls
recordEnd without recordStart). -/
theorem C4_theorem (st : WalletSecurityContext) (today : Nat) (amount : ℚ) (env : ExecEnv) :
    ((validateTradeAmount st today amount).2 = Option.none →
      (tradeExecutionRun st today amount env).secEvents.countP isEndEvent = 1) ∧
    (∀ r, (validateTradeAmount st today amount).2 = some r →
      (tradeExecutionRun st today amount env).secEvents = []) ∧
    ((tradeExecutionRun st today amount env).secEvents.countP isStartEvent ≤ 1) := by
  refine ⟨?_, ?_, ?_⟩
  · intro hv
    simp only [tradeExecutionRun, hv]
    repeat' split
    all_goals simp [isEndEvent, isStartEvent]
  · intro r hv
    simp only [tradeExecutionRun, hv]
  · rcases hv : (validateTradeAmount st today amount).2 with - | r
    · simp only [tradeExecutionRun, hv]
      repeat' split
      all_goals simp [isEndEvent, isStartEvent]
    · simp only [tradeExecutionRun, hv]
      simp

/-- A fresh security context: nothing spent, no open trades, no emergency stop. -/
def freshSecurityState : WalletSecurityContext :=
  { dailySpentAmount := 0, concurrentTradesCount := 0, lastResetDate := 0
    emergencyStopActive := false }

theorem validate_freshState_50 : (validateTradeAmount freshSecurityState 0 50).2 = Option.none := by
  norm_num [validateTradeAmount, rolloverDay, freshSecurityState, SECURITY_maxSingleTrade,
    SECURITY_maxDailySpend, SECURITY_maxConcurrentTrades]

/-- An environment whose wallet balance check throws after validation passed. -/
def c4Env : ExecEnv :=
  { walletAddressPresent := true
    balanceCall := Except.error "rpc unreachable"
    dbCreateOk := true
    dbUpdateOk := true
    approval := fun _ => Except.ok ()
    trade := fun _ => Except.error "submit failed" }

/-- C4 counterexample: a run that passes validation but whose balance check
throws invokes recordEnd once while recordStart was never invoked, refuting
the claim that recordEnd never happens on a run without recordStart. -/
theorem C4_counterexample :
    (tradeExecutionRun freshSecurityState 0 50 c4Env).secEvents.countP isEndEvent = 1 ∧
    (tradeExecutionRun freshSecurityState 0 50 c4Env).secEvents.countP isStartEvent = 0 := by
  have hrun : tradeExecutionRun freshSecurityState 0 50 c4Env =
      ⟨[SecEvent.recordEnd], [], false,
        some ("Wallet balance check failed: " ++ "rpc unreachable"), 0, 0, 0, false⟩ := by
    simp only [tradeExecutionRun, validate_freshState_50, c4Env, Bool.true_eq_false,
      if_false]
  rw [hrun]
  simp [isEndEvent, isStartEvent]

/-- An environment in which every submission attempt fails permanently. -/
def c6Env : ExecEnv :=
  { walletAddressPresent := true
    balanceCall := Except.ok 1000
    dbCreateOk := true
    dbUpdateOk := true
    approval := fun _ => Except.ok ()
    trade := fun _ => Except.error "submission reverted" }

theorem c6Env_attempt_err (k : Nat) :
    attemptOnce c6Env k = Except.error "submission reverted" := rfl

theorem validate_freshState_500 :
    (validateTradeAmount freshSecurityState 0 500).2 =
      some (RejectReason.exceedsSingleLimit 500 SECURITY_maxSingleTrade) := by
  norm_num [validateTradeAmount, rolloverDay, freshSecurityState, SECURITY_maxSingleTrade]

/-- C4 witness: at a concrete validated run the recordEnd count is exactly 1,
and a run rejected by validation never touches the ledger. -/
theorem C4_witness :
    (tradeExecutionRun freshSecurityState 0 50 c6Env).secEvents.countP isEndEvent = 1 ∧
    (tradeExecutionRun freshSecurityState 0 500 c6Env).secEvents = [] :=
  ⟨(C4_theorem freshSecurityState 0 50 c6Env).1 validate_freshState_50,
    (C4_theorem freshSecurityState 0 500 c6Env).2.1
      (RejectReason.exceedsSingleLimit 500 SECURITY_maxSingleTrade) validate_freshState_500⟩

/-- C6 witness: the retry-exhaustion behaviour at a concrete permanently
failing backend. -/
theorem C6_witness :
    (tradeExecutionRun freshSecurityState 0 50 c6Env).attempts = 4 ∧
    (tradeExecutionRun freshSecurityState 0 50 c6Env).delays = 3 ∧
    (tradeExecutionRun freshSecurityState 0 50 c6Env).dbWrites =
      [TradeStatus.PENDING, TradeStatus.FAILED] ∧
    (tradeExecutionRun freshSecurityState 0 50 c6Env).errMsg = some "submission reverted" ∧
    (tradeExecutionRun freshSecurityState 0 50 c6Env).retryCount = 4 ∧
    (tradeExecutionRun freshSecurityState 0 50 c6Env).success = false :=
  C6_theorem freshSecurityState 0 50 c6Env 1000
    "submission reverted" "submission reverted" "submission reverted" "submission reverted"
    validate_freshState_50 rfl rfl (by norm_num) rfl rfl
    (c6Env_attempt_err 0) (c6Env_attempt_err 1) (c6Env_attempt_err 2) (c6Env_attempt_err 3)

/-! ## Per-source circuit breaker (reddit intelligence tool module) -/

/-- Circuit breaker state: consecutive-failure count and last-failure time. -/
structure BreakerState where
  failures : Nat
  lastFailureTime : Nat
deriving DecidableEq

/-- Circuit breaker configuration (environment-driven, defaults 5 failures and
5 minutes). -/
structure BreakerConfig where
  failureThreshold : Nat
  recoveryTimeout : Nat
deriving DecidableEq

/-- The default breaker configuration (threshold 5, recovery window 5 min). -/
def defaultBreakerConfig : BreakerConfig :=
  { failureThreshold := 5, recoveryTimeout := 5 * 60000 }

/-- The breaker's `isOpen` predicate: failures at the threshold and the
recovery window not yet elapsed since the last failure. -/
def breakerIsOpen (cfg : BreakerConfig) (s : BreakerState) (now : Nat) : Bool :=
  decide (cfg.failureThreshold ≤ s.failures) &&
    decide (now - s.lastFailureTime < cfg.recoveryTimeout)

/-- What the caller of the breaker observes: the fallback (breaker open), the
operation's value, or the operation's error re-thrown. -/
inductive BreakerOutcome (α : Type)
  | fallback (a : α)
  | success (a : α)
  | thrown (e : String)
deriving DecidableEq

/-- The breaker's `execute`: short-circuit to the fallback when open; otherwise
run the operation, resetting the counter on success, and incrementing the
counter and stamping the failure time before re-throwing on failure.  The
third component records whether the wrapped operation was invoked. -/
def breakerExecute {α : Type} (cfg : BreakerConfig) (s : BreakerState) (now : Nat)
    (op : Except String α) (fb : α) : BreakerOutcome α × BreakerState × Bool :=
  if breakerIsOpen cfg s now then (BreakerOutcome.fallback fb, s, false)
  else
    match op with
    | Except.ok a => (BreakerOutcome.success a, { s with failures := 0 }, true)
    | Except.error e =>
      (BreakerOutcome.thrown e, { failures := s.failures + 1, lastFailureTime := now }, true)

/-- Folding consecutive failing calls (at the given times) through the breaker. -/
def runFailures (cfg : BreakerConfig) : BreakerState → List Nat → BreakerState
  | s, [] => s
  | s, t :: ts =>
    runFailures cfg (breakerExecute cfg s t (Except.error "failure") ()).2.1 ts

theorem breaker_not_open_of_below (cfg : BreakerConfig) (s : BreakerState) (now : Nat)
    (h : s.failures < cfg.failureThreshold) : breakerIsOpen cfg s now = false := by
  simp [breakerIsOpen, Nat.not_le.mpr h]

theorem runFailures_steps (cfg : BreakerConfig) (t : Nat) (ts : List Nat) :
    ∀ s : BreakerState, s.failures + ts.length + 1 ≤ cfg.failureThreshold →
      runFailures cfg s (ts ++ [t]) =
        { failures := s.failures + ts.length + 1, lastFailureTime := t } := by
  induction ts with
  | nil =>
    intro s hs
    have hlt : s.failures < cfg.failureThreshold := by
      simp at hs
      omega
    simp only [List.nil_append, runFailures, breakerExecute,
      breaker_not_open_of_below cfg s t hlt, Bool.false_eq_true, if_false]
    simp
  | cons u us ih =>
    intro s hs
    have hlt : s.failures < cfg.failureThreshold := by
      simp at hs ⊢
      omega
    have hstep : (breakerExecute cfg s u (Except.error "failure") ()).2.1 =
        { failures := s.failures + 1, lastFailureTime := u } := by
      simp only [breakerExecute, breaker_not_open_of_below cfg s u hlt,
        Bool.false_eq_true, if_false]
    show runFailures cfg (breakerExecute cfg s u (Except.error "failure") ()).2.1 (us ++ [t]) = _
    rw [hstep]
    rw [ih { failures := s.failures + 1, lastFailureTime := u } (by simp at hs ⊢; omega)]
    congr 1
    simp
    omega

/-- C3: the breaker short-circuits to the supplied fallback without invoking
the operation while open; a call at or after the recovery window from the last
failure does invoke the operation — success resets the failure counter to 0,
failure re-stamps the last-failure time, increments the counter and leaves the
breaker open for the next recovery window; and from a closed state, exactly
failureThreshold consecutive failures leave it open for any time within the
recovery window of the last failure. -/
theorem C3_theorem (cfg : BreakerConfig) :
    (∀ (α : Type) (s : BreakerState) (now : Nat) (op : Except String α) (fb : α),
      breakerIsOpen cfg s now = true →
      breakerExecute cfg s now op fb = (BreakerOutcome.fallback fb, s, false)) ∧
    (∀ (α : Type) (s : BreakerState) (now : Nat) (op : Except String α) (fb : α),
      cfg.recoveryTimeout ≤ now - s.lastFailureTime →
      (breakerExecute cfg s now op fb).2.2 = true) ∧
    (∀ (α : Type) (s : BreakerState) (now : Nat) (a : α) (fb : α),
      cfg.recoveryTimeout ≤ now - s.lastFailureTime →
      (breakerExecute cfg s now (Except.ok a) fb).2.1.failures = 0) ∧
    (∀ (α : Type) (s : BreakerState) (now : Nat) (e : String) (fb : α),
      cfg.recoveryTimeout ≤ now - s.lastFailureTime →
      (breakerExecute cfg s now (Except.error e) fb).2.1 =
        { failures := s.failures + 1, lastFailureTime := now } ∧
      (cfg.failureThreshold ≤ s.failures → ∀ now2 : Nat,
        now2 - now < cfg.recoveryTimeout →
        breakerIsOpen cfg (breakerExecute cfg s now (Except.error e) fb).2.1 now2 = true)) ∧
    (∀ (ts : List Nat) (t : Nat), ts.length + 1 = cfg.failureThreshold →
      runFailures cfg { failures := 0, lastFailureTime := 0 } (ts ++ [t]) =
        { failures := cfg.failureThreshold, lastFailureTime := t } ∧
      ∀ now : Nat, now - t < cfg.recoveryTimeout →
        breakerIsOpen cfg { failures := cfg.failureThreshold, lastFailureTime := t } now
          = true) := by
  have hclosed : ∀ (s : BreakerState) (now : Nat),
      cfg.recoveryTimeout ≤ now - s.lastFailureTime → breakerIsOpen cfg s now = false := by
    intro s now h
    simp [breakerIsOpen, Nat.not_lt.mpr h]
  refine ⟨?_, ?_, ?_, ?_, ?_⟩
  · intro α s now op fb hopen
    simp [breakerExecute, hopen]
  · intro α s now op fb hrec
    cases op <;> simp [breakerExecute, hclosed s now hrec]
  · intro α s now a fb hrec
    simp [breakerExecute, hclosed s now hrec]
  · intro α s now e fb hrec
    have hno := hclosed s now hrec
    refine ⟨by simp [breakerExecute, hno], ?_⟩
    intro hthr now2 hnow2
    simp only [breakerExecute, hno, Bool.false_eq_true, if_false]
    simp only [breakerIsOpen, Bool.and_eq_true, decide_eq_true_eq]
    exact ⟨by omega, hnow2⟩
  · intro ts t hlen
    constructor
    · have := runFailures_steps cfg t ts { failures := 0, lastFailureTime := 0 }
        (by simp [hlen])
      simpa [hlen] using this
    · intro now hnow
      simp [breakerIsOpen, hnow]

/-- C3 witness: the default configuration (threshold 5, window 300000 ms),
five consecutive failures at times 10..50, a sixth call at time 60 returning
the fallback uninvoked, and an invoked call after the window with its
success/failure state updates. -/
theorem C3_witness :
    runFailures defaultBreakerConfig { failures := 0, lastFailureTime := 0 }
        ([10, 20, 30, 40] ++ [50]) = { failures := 5, lastFailureTime := 50 } ∧
    breakerIsOpen defaultBreakerConfig { failures := 5, lastFailureTime := 50 } 60 = true ∧
    breakerExecute defaultBreakerConfig { failures := 5, lastFailureTime := 50 } 60
        (Except.error "net down") ([] : List Nat) =
      (BreakerOutcome.fallback [], { failures := 5, lastFailureTime := 50 }, false) ∧
    (breakerExecute defaultBreakerConfig { failures := 5, lastFailureTime := 50 } 300051
        (Except.ok [7]) ([] : List Nat)).2.1.failures = 0 ∧
    (breakerExecute defaultBreakerConfig { failures := 5, lastFailureTime := 50 } 300051
        (Except.error "net down") ([] : List Nat)).2.1 =
      { failures := 6, lastFailureTime := 300051 } := by
  have h := C3_theorem defaultBreakerConfig
  refine ⟨(h.2.2.2.2 [10, 20, 30, 40] 50 (by decide)).1,
    (h.2.2.2.2 [10, 20, 30, 40] 50 (by decide)).2 60 (by decide),
    h.1 (List Nat) _ 60 _ _ (by decide),
    h.2.2.1 (List Nat) _ 300051 [7] [] (by decide),
    (h.2.2.2.1 (List Nat) _ 300051 "net down" [] (by decide)).1⟩

/-! ## Signal cache and the reddit tool's control flow -/

/-- Reddit community sentiment labels. -/
inductive CommunitySentiment
  | bullish
  | bearish
  | neutral
  | divided
deriving DecidableEq

/-- A reddit post as normalized by the tool. -/
structure RedditPost where
  title : String
  content : String
  score : ℚ
  subreddit : String
  author : String
  created_utc : ℚ
  num_comments : ℚ
  upvote_ratio : ℚ
  permalink : String
deriving DecidableEq

/-- A key discussion entry of the processed bundle. -/
structure RedditDiscussion where
  title : String
  content : String
  score : ℚ
  subreddit : String
  engagement : ℚ
  credibility : ℚ
  sentiment : ℚ
  timeRelevance : ℚ
deriving DecidableEq

/-- The processed reddit data bundle (`ProcessedRedditData`). -/
structure ProcessedRedditData where
  sentiment_score : ℚ
  confidence : ℚ
  trending_topics : List String
  key_discussions : List RedditDiscussion
  community_sentiment : CommunitySentiment
  engagement_momentum : ℚ
  credibility_score : ℚ
  post_volume : Nat
  average_sentiment : ℚ
  subreddit_distribution : List (String × Nat)
  time_relevance_score : ℚ
deriving DecidableEq

/-- The neutral zero-signal bundle, identical to the tool's fallback data and
to the early return of `processRedditData` on an empty quality-post list. -/
def neutralRedditData : ProcessedRedditData :=
  { sentiment_score := 0, confidence := 0, trending_topics := [], key_discussions := []
    community_sentiment := CommunitySentiment.neutral, engagement_momentum := 0
    credibility_score := 0, post_volume := 0, average_sentiment := 0
    subreddit_distribution := [], time_relevance_score := 0 }

/-- The quality filter of `processRedditData` (score above 5 and a minimal
content or title length), truncated to the top 15; the relevance sort between
the filter and the truncation cannot change emptiness and the nonempty branch
is oracle-determined, so the sort is folded into the oracle. -/
def qualityPosts (posts : List RedditPost) : List RedditPost :=
  ((posts.filter (fun p => 5 < p.score)).filter
    (fun p => 50 < p.content.length ∨ 20 < p.title.length)).take 15

/-- Oracle for the reddit tool's external collaborators: the outcome of
`searchRedditDiscussions` (reddit API with LLM-guided subreddit selection) and
the bundle the LLM-driven sentiment analysis produces on a nonempty
quality-post list. -/
structure RedditEnv where
  searchResult : Except String (List RedditPost)
  llmProcessed : ProcessedRedditData

/-- `processRedditData`: the neutral bundle when no quality posts survive the
filter, otherwise the bundle computed from the posts and the external LLM
sentiment service (modelled by the oracle). -/
def processRedditData (env : RedditEnv) (posts : List RedditPost) : ProcessedRedditData :=
  if (qualityPosts posts).isEmpty then neutralRedditData else env.llmProcessed

/-- A cache entry: the processed bundle and its insertion timestamp. -/
structure CacheEntry where
  data : ProcessedRedditData
  timestamp : Nat
deriving DecidableEq

/-- The signal cache, keyed by the `reddit:marketId:queryHash` string (the
LRU library's map modelled as an association list; its entry-count bound is
orthogonal to the claims below). -/
abbrev SignalCache := List (String × CacheEntry)

/-- The cache TTL used by `getCachedResult` (5 minutes in ms). -/
def REDDIT_CACHE_TTL : Nat := 5 * 60 * 1000

/-- The cache key `reddit:marketId:queryHash`. -/
def cacheKey (marketId queryHash : String) : String :=
  "reddit:" ++ marketId ++ ":" ++ queryHash

/-- Removal of a key (`cache.delete`). -/
def cacheEraseKey (k : String) (c : SignalCache) : SignalCache :=
  c.filter (fun p => p.1 != k)

/-- `getCachedResult`: a hit whose age exceeds the TTL is deleted and treated
as a miss; otherwise the stored bundle is returned. -/
def getCachedResult (c : SignalCache) (marketId queryHash : String) (now : Nat) :
    Option ProcessedRedditData × SignalCache :=
  match c.lookup (cacheKey marketId queryHash) with
  | Option.none => (Option.none, c)
  | some e =>
    if REDDIT_CACHE_TTL < now - e.timestamp then
      (Option.none, cacheEraseKey (cacheKey marketId queryHash) c)
    else (some e.data, c)

/-- `setCachedResult`: store the bundle under the key with the current time. -/
def setCachedResult (c : SignalCache) (marketId queryHash : String) (now : Nat)
    (d : ProcessedRedditData) : SignalCache :=
  (cacheKey marketId queryHash, { data := d, timestamp := now }) :: cacheEraseKey
    (cacheKey marketId queryHash) c

/-- Observable outcome of one run of the reddit intelligence tool. -/
structure RedditToolOut where
  data : ProcessedRedditData
  sources : List String
  cachedFlag : Bool
  cacheAfter : SignalCache
  breakerAfter : BreakerState
  sourceInvoked : Bool

/-- The `execute` body of the reddit intelligence tool: cache lookup first;
on a miss, the search through the circuit breaker with the empty post list as
fallback, then `processRedditData`, then `setCachedResult` on the processed
bundle; a thrown error is caught and answered with the zero bundle, sources
["fallback"], without touching the cache. -/
def redditToolRun (cfg : BreakerConfig) (env : RedditEnv) (c : SignalCache)
    (brk : BreakerState) (marketId queryHash : String) (now : Nat) : RedditToolOut :=
  match getCachedResult c marketId queryHash now with
  | (some d, c2) =>
    { data := d, sources := ["reddit-cache"], cachedFlag := true
      cacheAfter := c2, breakerAfter := brk, sourceInvoked := false }
  | (Option.none, c2) =>
    match breakerExecute cfg brk now env.searchResult [] with
    | (BreakerOutcome.thrown _, brk2, inv) =>
      { data := neutralRedditData, sources := ["fallback"], cachedFlag := false
        cacheAfter := c2, breakerAfter := brk2, sourceInvoked := inv }
    | (BreakerOutcome.fallback posts, brk2, inv) =>
      { data := processRedditData env posts, sources := ["reddit-api"], cachedFlag := false
        cacheAfter := setCachedResult c2 marketId queryHash now (processRedditData env posts)
        breakerAfter := brk2, sourceInvoked := inv }
    | (BreakerOutcome.success posts, brk2, inv) =>
      { data := processRedditData env posts, sources := ["reddit-api"], cachedFlag := false
        cacheAfter := setCachedResult c2 marketId queryHash now (processRedditData env posts)
        breakerAfter := brk2, sourceInvoked := inv }

theorem lookup_eraseKey (k : String) (c : SignalCache) :
    (cacheEraseKey k c).lookup k = Option.none := by
  induction c with
  | nil => rfl
  | cons p t ih =>
    by_cases h : p.1 = k
    · simp only [cacheEraseKey, List.filter_cons]
      rw [show (p.1 != k) = false by simp [h]]
      exact ih
    · simp only [cacheEraseKey, List.filter_cons]
      rw [show (p.1 != k) = true by simp [h]]
      have hne : (k == p.1) = false := by
        simp [Ne.symm h]
      rcases p with ⟨k1, e1⟩
      simp only [List.lookup, hne]
      exact ih

/-- C9 (amended): an entry inserted at time T is returned by any lookup with
now − T ≤ TTL — including a lookup at exactly T + TTL — and a lookup once
now − insertion exceeds the TTL strictly treats the entry as absent and
removes it from the cache. -/
theorem C9_theorem (c : SignalCache) (marketId queryHash : String) (tIns now : Nat)
    (d : ProcessedRedditData) :
    (now - tIns ≤ REDDIT_CACHE_TTL →
      getCachedResult (setCachedResult c marketId queryHash tIns d) marketId queryHash now =
        (some d, setCachedResult c marketId queryHash tIns d)) ∧
    (REDDIT_CACHE_TTL < now - tIns →
      (getCachedResult (setCachedResult c marketId queryHash tIns d) marketId
        queryHash now).1 = Option.none ∧
      ((getCachedResult (setCachedResult c marketId queryHash tIns d) marketId
        queryHash now).2).lookup (cacheKey marketId queryHash) = Option.none) := by
  have hlook : (setCachedResult c marketId queryHash tIns d).lookup
      (cacheKey marketId queryHash) = some { data := d, timestamp := tIns } := by
    simp [setCachedResult, List.lookup]
  constructor
  · intro hle
    simp only [getCachedResult, hlook]
    rw [if_neg (by omega : ¬ REDDIT_CACHE_TTL < now - tIns)]
  · intro hgt
    simp only [getCachedResult, hlook, if_pos hgt]
    exact ⟨trivial, lookup_eraseKey _ _⟩

/-- C9 counterexample: an entry inserted at time 0 and looked up at exactly
time TTL — so that now − insertion ≥ TTL — is still returned, refuting the
claim that such a lookup treats the entry as absent (the code evicts only
strictly beyond the TTL). -/
theorem C9_counterexample :
    REDDIT_CACHE_TTL ≤ REDDIT_CACHE_TTL - 0 ∧
    (getCachedResult (setCachedResult [] "m" "q" 0 neutralRedditData) "m" "q"
        REDDIT_CACHE_TTL).1 = some neutralRedditData ∧
    ¬ ((getCachedResult (setCachedResult [] "m" "q" 0 neutralRedditData) "m" "q"
        REDDIT_CACHE_TTL).1 = Option.none) := by
  have h2 : (getCachedResult (setCachedResult [] "m" "q" 0 neutralRedditData) "m" "q"
      REDDIT_CACHE_TTL).1 = some neutralRedditData := rfl
  refine ⟨by omega, h2, ?_⟩
  intro h
  rw [h] at h2
  exact Option.noConfusion h2

/-- C9 witness: a lookup 5 ms after insertion returns the stored bundle and
leaves the cache untouched; a lookup 1 ms past the TTL misses and removes the
entry. -/
theorem C9_witness :
    (getCachedResult (setCachedResult [] "m" "q" 0 neutralRedditData) "m" "q" 5 =
      (some neutralRedditData, setCachedResult [] "m" "q" 0 neutralRedditData)) ∧
    (getCachedResult (setCachedResult [] "m" "q" 0 neutralRedditData) "m" "q" 300001).1 =
      Option.none ∧
    ((getCachedResult (setCachedResult [] "m" "q" 0 neutralRedditData) "m" "q"
      300001).2).lookup (cacheKey "m" "q") = Option.none :=
  ⟨(C9_theorem [] "m" "q" 0 5 neutralRedditData).1 (by decide),
    ((C9_theorem [] "m" "q" 0 300001 neutralRedditData).2 (by decide)).1,
    ((C9_theorem [] "m" "q" 0 300001 neutralRedditData).2 (by decide)).2⟩

/-! ## C8: negative caching of the breaker-open fallback -/

/-- A reddit environment whose search would fail; the LLM-processing oracle is
irrelevant on the paths exercised below. -/
def c8Env : RedditEnv :=
  { searchResult := Except.error "reddit unreachable"
    llmProcessed := neutralRedditData }

/-- First tool run: empty cache, breaker open (5 failures, 1 ms ago). -/
def c8Run1 : RedditToolOut :=
  redditToolRun defaultBreakerConfig c8Env []
    { failures := 5, lastFailureTime := 1000 } "m1" "q1" 1001

/-- Second tool run for the same (market id, query), 999 ms later, over the
cache produced by the first run. -/
def c8Run2 : RedditToolOut :=
  redditToolRun defaultBreakerConfig c8Env c8Run1.cacheAfter c8Run1.breakerAfter
    "m1" "q1" 2000

/-- C8: with the circuit breaker open, the tool substitutes the neutral
fallback bundle without invoking the source, yet stores that bundle in the
signal cache; the next lookup for the same (market id, query) returns it from
the cache.  This contradicts the no-negative-caching claim (and the source's
own comment that only successful results are cached). -/
theorem C8_theorem :
    breakerIsOpen defaultBreakerConfig { failures := 5, lastFailureTime := 1000 } 1001 = true ∧
    c8Run1.sourceInvoked = false ∧
    c8Run1.data = neutralRedditData ∧
    c8Run1.cacheAfter.lookup (cacheKey "m1" "q1") =
      some { data := neutralRedditData, timestamp := 1001 } ∧
    c8Run2.cachedFlag = true ∧
    c8Run2.data = neutralRedditData ∧
    c8Run2.sources = ["reddit-cache"] :=
  ⟨rfl, rfl, rfl, rfl, rfl, rfl, rfl⟩
